import Mathlib

/-!
Verification of the core trading pipeline of the `ai-trading-agents`
repository, shallowly embedded in Lean 4.

Python floats are modelled as `ℚ`; integer scores as `ℤ`;
values that the source leaves as NaN (dropped later by `dropna`)
are modelled as `none : Option ℚ`; functions that can return
Python `None` return `Option _`.
-/

namespace Trading

/-! ## Scoring & decision engine (`technical_agent.py`) -/

/-- Embeds `decision_from_score` (technical_agent.py, lines 309-318):
an if-chain from the integer technical score to the decision string. -/
def decision_from_score (score : ℤ) : String :=
  if score ≥ 6 then "STRONG BUY"
  else if score ≥ 3 then "BUY"
  else if score ≤ -6 then "STRONG SELL"
  else if score ≤ -3 then "SELL"
  else "HOLD / WAIT"

/-- Rank of a decision string on the SELL-side < HOLD < BUY-side order,
used to state monotonicity of `decision_from_score`. -/
def decisionRank (d : String) : ℕ :=
  if d = "STRONG SELL" then 0
  else if d = "SELL" then 1
  else if d = "HOLD / WAIT" then 2
  else if d = "BUY" then 3
  else 4

/-- The last row of the indicator frame produced by `compute_indicators`
(technical_agent.py): one value per indicator column consumed by
`score_technical_indicators`.  All Python floats become `ℚ`. -/
structure Snapshot where
  close : ℚ
  ema20 : ℚ
  ema50 : ℚ
  ema200 : ℚ
  sma200 : ℚ
  rsi14 : ℚ
  macd : ℚ
  macd_signal : ℚ
  atr14 : ℚ
  adx14 : ℚ
  bb_lower : ℚ
  bb_upper : ℚ
  ichimoku_tenkan : ℚ
  ichimoku_kijun : ℚ
  ichimoku_span_a : ℚ
  ichimoku_span_b : ℚ
  deriving Repr, DecidableEq

/-- One constructor per distinct reason string appended by
`score_technical_indicators`; the numeric payload carries the value that
the Python f-string interpolates. -/
inductive Reason where
  | rsiOverbought (v : ℚ)
  | rsiOversold (v : ℚ)
  | rsiNeutral (v : ℚ)
  | shortTrendUp
  | shortTrendDown
  | shortTrendMixed
  | longTrendUp
  | longTrendDown
  | longTrendMixed
  | macdAbove
  | macdBelow
  | bollingerLow
  | bollingerHigh
  | adxWeak (v : ℚ)
  | adxModerate (v : ℚ)
  | adxStrong (v : ℚ)
  | cloudAbove
  | cloudBelow
  | cloudInside
  | kijunAbove
  | kijunBelow
  deriving Repr, DecidableEq

/-- The RSI block of `score_technical_indicators`: updates the running
(score, reasons) accumulator exactly as the source's first if/elif does. -/
def rsiStep (last : Snapshot) (st : ℤ × List Reason) : ℤ × List Reason :=
  if last.rsi14 > 70 then (st.1 - 1, st.2 ++ [Reason.rsiOverbought last.rsi14])
  else if last.rsi14 < 30 then (st.1 + 1, st.2 ++ [Reason.rsiOversold last.rsi14])
  else (st.1, st.2 ++ [Reason.rsiNeutral last.rsi14])

/-- The EMA20/EMA50 short-trend block of `score_technical_indicators`. -/
def shortTrendStep (last : Snapshot) (st : ℤ × List Reason) : ℤ × List Reason :=
  if last.close > last.ema20 ∧ last.close > last.ema50 then
    (st.1 + 1, st.2 ++ [Reason.shortTrendUp])
  else if last.close < last.ema20 ∧ last.close < last.ema50 then
    (st.1 - 1, st.2 ++ [Reason.shortTrendDown])
  else (st.1, st.2 ++ [Reason.shortTrendMixed])

/-- The EMA200/SMA200 long-trend block of `score_technical_indicators`. -/
def longTrendStep (last : Snapshot) (st : ℤ × List Reason) : ℤ × List Reason :=
  if last.close > last.ema200 ∧ last.close > last.sma200 then
    (st.1 + 2, st.2 ++ [Reason.longTrendUp])
  else if last.close < last.ema200 ∧ last.close < last.sma200 then
    (st.1 - 2, st.2 ++ [Reason.longTrendDown])
  else (st.1, st.2 ++ [Reason.longTrendMixed])

/-- The MACD block of `score_technical_indicators`. -/
def macdStep (last : Snapshot) (st : ℤ × List Reason) : ℤ × List Reason :=
  if last.macd > last.macd_signal then (st.1 + 1, st.2 ++ [Reason.macdAbove])
  else (st.1 - 1, st.2 ++ [Reason.macdBelow])

/-- The Bollinger-band block of `score_technical_indicators` (appends no
reason in the neutral case, like the source). -/
def bollingerStep (last : Snapshot) (st : ℤ × List Reason) : ℤ × List Reason :=
  if last.close < last.bb_lower then (st.1 + 1, st.2 ++ [Reason.bollingerLow])
  else if last.close > last.bb_upper then (st.1 - 1, st.2 ++ [Reason.bollingerHigh])
  else (st.1, st.2)

/-- The ADX comment block of `score_technical_indicators`: appends a reason
and leaves the score untouched, like the source ("solo come commento"). -/
def adxStep (last : Snapshot) (st : ℤ × List Reason) : ℤ × List Reason :=
  if last.adx14 < 20 then (st.1, st.2 ++ [Reason.adxWeak last.adx14])
  else if last.adx14 < 30 then (st.1, st.2 ++ [Reason.adxModerate last.adx14])
  else (st.1, st.2 ++ [Reason.adxStrong last.adx14])

/-- The Ichimoku-cloud block of `score_technical_indicators`, with
`cloud_top = max span_a span_b` and `cloud_bottom = min span_a span_b`. -/
def ichimokuStep (last : Snapshot) (st : ℤ × List Reason) : ℤ × List Reason :=
  if last.close > max last.ichimoku_span_a last.ichimoku_span_b then
    (st.1 + 1, st.2 ++ [Reason.cloudAbove])
  else if last.close < min last.ichimoku_span_a last.ichimoku_span_b then
    (st.1 - 1, st.2 ++ [Reason.cloudBelow])
  else (st.1, st.2 ++ [Reason.cloudInside])

/-- The kijun comment block of `score_technical_indicators`: appends a
reason and leaves the score untouched, like the source. -/
def kijunStep (last : Snapshot) (st : ℤ × List Reason) : ℤ × List Reason :=
  if last.close > last.ichimoku_kijun then (st.1, st.2 ++ [Reason.kijunAbove])
  else (st.1, st.2 ++ [Reason.kijunBelow])

/-- Embeds `score_technical_indicators` (technical_agent.py, lines 212-306):
the sequential if/elif rule chain over the last indicator row, accumulating
an integer score and appending reasons in source order (each `...Step` is
one contiguous block of the source, applied in source order starting from
`(0, [])`).  Reason strings are represented by `Reason` constructors
carrying the interpolated value. -/
def score_technical_indicators (last : Snapshot) : ℤ × List Reason :=
  kijunStep last (ichimokuStep last (adxStep last (bollingerStep last
    (macdStep last (longTrendStep last (shortTrendStep last (rsiStep last (0, []))))))))

/-- The RSI rule delta of the scoring chain, taken in isolation. -/
def rsiDelta (s : Snapshot) : ℤ :=
  if s.rsi14 > 70 then -1 else if s.rsi14 < 30 then 1 else 0

/-- The short-trend (EMA20/EMA50) rule delta, in isolation. -/
def shortTrendDelta (s : Snapshot) : ℤ :=
  if s.close > s.ema20 ∧ s.close > s.ema50 then 1
  else if s.close < s.ema20 ∧ s.close < s.ema50 then -1 else 0

/-- The long-trend (EMA200/SMA200) rule delta, in isolation. -/
def longTrendDelta (s : Snapshot) : ℤ :=
  if s.close > s.ema200 ∧ s.close > s.sma200 then 2
  else if s.close < s.ema200 ∧ s.close < s.sma200 then -2 else 0

/-- The MACD rule delta (always nonzero), in isolation. -/
def macdDelta (s : Snapshot) : ℤ :=
  if s.macd > s.macd_signal then 1 else -1

/-- The Bollinger-band rule delta, in isolation. -/
def bollingerDelta (s : Snapshot) : ℤ :=
  if s.close < s.bb_lower then 1 else if s.close > s.bb_upper then -1 else 0

/-- The Ichimoku-cloud rule delta, in isolation. -/
def ichimokuDelta (s : Snapshot) : ℤ :=
  if s.close > max s.ichimoku_span_a s.ichimoku_span_b then 1
  else if s.close < min s.ichimoku_span_a s.ichimoku_span_b then -1 else 0

theorem decisionRank_strong_sell : decisionRank "STRONG SELL" = 0 := rfl

theorem decisionRank_sell : decisionRank "SELL" = 1 := rfl

theorem decisionRank_hold : decisionRank "HOLD / WAIT" = 2 := rfl

theorem decisionRank_buy : decisionRank "BUY" = 3 := rfl

theorem decisionRank_strong_buy : decisionRank "STRONG BUY" = 4 := rfl

theorem rsiStep_fst (last : Snapshot) (st : ℤ × List Reason) :
    (rsiStep last st).1 = st.1 + rsiDelta last := by
  unfold rsiStep rsiDelta; split_ifs <;> omega

theorem shortTrendStep_fst (last : Snapshot) (st : ℤ × List Reason) :
    (shortTrendStep last st).1 = st.1 + shortTrendDelta last := by
  unfold shortTrendStep shortTrendDelta; split_ifs <;> omega

theorem longTrendStep_fst (last : Snapshot) (st : ℤ × List Reason) :
    (longTrendStep last st).1 = st.1 + longTrendDelta last := by
  unfold longTrendStep longTrendDelta; split_ifs <;> omega

theorem macdStep_fst (last : Snapshot) (st : ℤ × List Reason) :
    (macdStep last st).1 = st.1 + macdDelta last := by
  unfold macdStep macdDelta; split_ifs <;> omega

theorem bollingerStep_fst (last : Snapshot) (st : ℤ × List Reason) :
    (bollingerStep last st).1 = st.1 + bollingerDelta last := by
  unfold bollingerStep bollingerDelta; split_ifs <;> omega

theorem adxStep_fst (last : Snapshot) (st : ℤ × List Reason) :
    (adxStep last st).1 = st.1 := by
  unfold adxStep; split_ifs <;> rfl

theorem ichimokuStep_fst (last : Snapshot) (st : ℤ × List Reason) :
    (ichimokuStep last st).1 = st.1 + ichimokuDelta last := by
  unfold ichimokuStep ichimokuDelta; split_ifs <;> omega

theorem kijunStep_fst (last : Snapshot) (st : ℤ × List Reason) :
    (kijunStep last st).1 = st.1 := by
  unfold kijunStep; split_ifs <;> rfl

/-- The technical score is the sum of the six independent rule deltas. -/
theorem score_eq_sum_deltas (s : Snapshot) :
    (score_technical_indicators s).1 =
      rsiDelta s + shortTrendDelta s + longTrendDelta s + macdDelta s +
        bollingerDelta s + ichimokuDelta s := by
  unfold score_technical_indicators
  rw [kijunStep_fst, ichimokuStep_fst, adxStep_fst, bollingerStep_fst,
    macdStep_fst, longTrendStep_fst, shortTrendStep_fst, rsiStep_fst]
  ring

/-- Claim C1: `decision_from_score` is a pure total function of the integer
score alone: STRONG BUY for score ≥ 6, BUY for 3 ≤ score ≤ 5, STRONG SELL
for score ≤ -6, SELL for -6 < score ≤ -3, HOLD / WAIT otherwise; it is
monotonic non-decreasing in the score under the
SELL-side < HOLD < BUY-side ordering, and takes the stated values at
6, 5, 0, -3 and -7. -/
theorem C1_decision_from_score_spec :
    (∀ s : ℤ, 6 ≤ s → decision_from_score s = "STRONG BUY") ∧
    (∀ s : ℤ, 3 ≤ s → s ≤ 5 → decision_from_score s = "BUY") ∧
    (∀ s : ℤ, s ≤ -6 → decision_from_score s = "STRONG SELL") ∧
    (∀ s : ℤ, -6 < s → s ≤ -3 → decision_from_score s = "SELL") ∧
    (∀ s : ℤ, -3 < s → s < 3 → decision_from_score s = "HOLD / WAIT") ∧
    (∀ s t : ℤ, s ≤ t →
      decisionRank (decision_from_score s) ≤ decisionRank (decision_from_score t)) ∧
    decision_from_score 6 = "STRONG BUY" ∧
    decision_from_score 5 = "BUY" ∧
    decision_from_score 0 = "HOLD / WAIT" ∧
    decision_from_score (-3) = "SELL" ∧
    decision_from_score (-7) = "STRONG SELL" := by
  refine ⟨?_, ?_, ?_, ?_, ?_, ?_, by decide, by decide, by decide, by decide, by decide⟩
  · intro s h; unfold decision_from_score
    rw [if_pos (by omega)]
  · intro s h1 h2; unfold decision_from_score
    rw [if_neg (by omega), if_pos (by omega)]
  · intro s h; unfold decision_from_score
    rw [if_neg (by omega), if_neg (by omega), if_pos (by omega)]
  · intro s h1 h2; unfold decision_from_score
    rw [if_neg (by omega), if_neg (by omega), if_neg (by omega), if_pos (by omega)]
  · intro s h1 h2; unfold decision_from_score
    rw [if_neg (by omega), if_neg (by omega), if_neg (by omega), if_neg (by omega)]
  · intro s t h; unfold decision_from_score
    split_ifs <;> simp only [decisionRank] <;> first | decide | omega

/-- Witness for C1 at concrete scores. -/
theorem C1_decision_from_score_spec_witness :
    decision_from_score 4 = "BUY" ∧ decision_from_score (-5) = "SELL" :=
  ⟨C1_decision_from_score_spec.2.1 4 (by decide) (by decide),
   C1_decision_from_score_spec.2.2.2.1 (-5) (by decide) (by decide)⟩

/-- Claim C2: the technical score equals the sum of the six independent
rule deltas (RSI, short trend, long trend, MACD, Bollinger, Ichimoku
cloud); the ADX and kijun rules never change the score (the score is
invariant under arbitrary changes of `adx14` and `ichimoku_kijun`), and
rule order affects only the reasons list, not the score (the deltas sum
commutatively). -/
theorem C2_score_additive :
    (∀ s : Snapshot, (score_technical_indicators s).1 =
      rsiDelta s + shortTrendDelta s + longTrendDelta s + macdDelta s +
        bollingerDelta s + ichimokuDelta s) ∧
    (∀ s : Snapshot, ∀ a k : ℚ,
      (score_technical_indicators { s with adx14 := a, ichimoku_kijun := k }).1 =
        (score_technical_indicators s).1) ∧
    (∀ s : Snapshot,
      ichimokuDelta s + bollingerDelta s + macdDelta s + longTrendDelta s +
        shortTrendDelta s + rsiDelta s = (score_technical_indicators s).1) ∧
    (∀ (last : Snapshot) (st : ℤ × List Reason),
      (adxStep last st).1 = st.1 ∧ ∃ rsn, (adxStep last st).2 = st.2 ++ [rsn]) ∧
    (∀ (last : Snapshot) (st : ℤ × List Reason),
      (kijunStep last st).1 = st.1 ∧ ∃ rsn, (kijunStep last st).2 = st.2 ++ [rsn]) := by
  refine ⟨score_eq_sum_deltas, ?_, ?_, ?_, ?_⟩
  · intro s a k
    rw [score_eq_sum_deltas, score_eq_sum_deltas]
    rfl
  · intro s
    rw [score_eq_sum_deltas]
    ring
  · intro last st
    unfold adxStep
    split_ifs <;> exact ⟨rfl, _, rfl⟩
  · intro last st
    unfold kijunStep
    split_ifs <;> exact ⟨rfl, _, rfl⟩

/-! ## Order constructor (`order_agent.py`, `config.py`) -/

/-- `config.ACCOUNT_SIZE` (config.py, line 13). -/
def ACCOUNT_SIZE : ℚ := 10000

/-- `config.RISK_PER_TRADE_PCT` (config.py, line 17). -/
def RISK_PER_TRADE_PCT : ℚ := 1

/-- The `tech_analysis` dict consumed by `build_order_from_analysis`:
technical score, decision string, the `indicators` sub-dict's
`last_price` and `atr14`, and the reason strings. -/
structure TechAnalysis where
  score : ℤ
  decision : String
  last_price : ℚ
  atr14 : ℚ
  reasons : List String
  deriving Repr, DecidableEq

/-- The order dict built by `build_order_from_analysis`. -/
structure OrderProposal where
  timestamp : String
  symbol : String
  name : String
  category : String
  side : String
  entry : ℚ
  stop_loss : ℚ
  take_profit : ℚ
  reward_risk : ℚ
  technical_score : ℤ
  technical_decision : String
  composite_score : ℚ
  atr14 : ℚ
  position_size : ℚ
  notional : ℚ
  risk_amount : ℚ
  reason_short : String
  deriving Repr, DecidableEq

/-- The inline category if/elif of `build_order_from_analysis`
(order_agent.py, lines 59-64): ATR stop multiplier per category. -/
def atrMultSl (category : String) : ℚ :=
  if category = "CRYPTO" then 2.5 else if category = "STOCK" then 1.8 else 1.5

/-- The straight-line tail of `build_order_from_analysis` after the side
has been selected (order_agent.py, lines 58-125): stop/target placement,
degenerate-risk guards, fixed-fractional position sizing, and the order
dict.  `side` is "LONG" or "SHORT" exactly as in the source. -/
def mkOrder (symbol name category : String) (tech_analysis : TechAnalysis)
    (composite_score : ℚ) (now side : String) : Option OrderProposal :=
  let sl_distance := tech_analysis.atr14 * atrMultSl category
  let reward_risk : ℚ := 2
  let entry := tech_analysis.last_price
  let stop_loss := if side = "LONG" then entry - sl_distance else entry + sl_distance
  let take_profit :=
    if side = "LONG" then entry + sl_distance * reward_risk
    else entry - sl_distance * reward_risk
  -- Non ha senso se SL o TP diventano negativi
  if stop_loss ≤ 0 ∨ take_profit ≤ 0 then none
  else
    let risk_amount := ACCOUNT_SIZE * (RISK_PER_TRADE_PCT / 100)
    let distance_to_sl := |entry - stop_loss|
    if distance_to_sl ≤ 0 then none
    else
      let position_size := risk_amount / distance_to_sl
      let notional := position_size * entry
      let reason_short :=
        tech_analysis.reasons.headD ("Decisione tecnica: " ++ tech_analysis.decision)
      some {
        timestamp := now
        symbol := symbol
        name := name
        category := category
        side := side
        entry := entry
        stop_loss := stop_loss
        take_profit := take_profit
        reward_risk := reward_risk
        technical_score := tech_analysis.score
        technical_decision := tech_analysis.decision
        composite_score := composite_score
        atr14 := tech_analysis.atr14
        position_size := position_size
        notional := notional
        risk_amount := risk_amount
        reason_short := reason_short }

/-- Embeds `build_order_from_analysis` (order_agent.py, lines 14-125).
Python's `return None` paths become `none`; the function is total, so no
execution path raises.  `now` stands for `datetime.utcnow().isoformat()`;
the CSV side effect `_log_order` is outside the model. -/
def build_order_from_analysis (symbol name category : String)
    (tech_analysis : TechAnalysis) (composite_score : ℚ) (now : String) :
    Option OrderProposal :=
  -- Se ATR è 0 o ridicolo, non possiamo definire SL sensato
  if tech_analysis.atr14 ≤ 0 ∨ tech_analysis.last_price ≤ 0 then none
  -- direzione (side): serve accordo fra score tecnico e composite
  else if tech_analysis.score ≥ 4 ∧ composite_score ≥ 4 then
    mkOrder symbol name category tech_analysis composite_score now "LONG"
  else if tech_analysis.score ≤ -4 ∧ composite_score ≤ -4 then
    mkOrder symbol name category tech_analysis composite_score now "SHORT"
  else none  -- segnale non abbastanza forte

/-- Field characterization of any LONG proposal produced by the tail
`mkOrder`. -/
theorem mkOrder_long_fields (symbol name category : String) (t : TechAnalysis)
    (comp : ℚ) (now : String) (o : OrderProposal)
    (h : mkOrder symbol name category t comp now "LONG" = some o) :
    o.side = "LONG" ∧ o.entry = t.last_price ∧
    o.stop_loss = t.last_price - t.atr14 * atrMultSl category ∧
    o.take_profit = t.last_price + t.atr14 * atrMultSl category * 2 ∧
    o.risk_amount = ACCOUNT_SIZE * (RISK_PER_TRADE_PCT / 100) ∧
    o.position_size = o.risk_amount / |o.entry - o.stop_loss| ∧
    o.notional = o.position_size * o.entry := by
  simp only [mkOrder] at h
  split_ifs at h
  all_goals first
    | exact Option.noConfusion h
    | exact absurd ‹"SHORT" = "LONG"› (by decide)
    | (injection h with h; subst h;
       refine ⟨rfl, rfl, by simp, by simp, rfl, by simp, rfl⟩)

/-- Field characterization of any SHORT proposal produced by the tail
`mkOrder`. -/
theorem mkOrder_short_fields (symbol name category : String) (t : TechAnalysis)
    (comp : ℚ) (now : String) (o : OrderProposal)
    (h : mkOrder symbol name category t comp now "SHORT" = some o) :
    o.side = "SHORT" ∧ o.entry = t.last_price ∧
    o.stop_loss = t.last_price + t.atr14 * atrMultSl category ∧
    o.take_profit = t.last_price - t.atr14 * atrMultSl category * 2 ∧
    o.risk_amount = ACCOUNT_SIZE * (RISK_PER_TRADE_PCT / 100) ∧
    o.position_size = o.risk_amount / |o.entry - o.stop_loss| ∧
    o.notional = o.position_size * o.entry := by
  simp only [mkOrder] at h
  split_ifs at h
  all_goals first
    | exact Option.noConfusion h
    | exact absurd ‹"SHORT" = "LONG"› (by decide)
    | (injection h with h; subst h;
       refine ⟨rfl, rfl, by simp, by simp, rfl, by simp, rfl⟩)

/-- Claim C3: every proposal returned by `build_order_from_analysis` has
stop distance = ATR × category multiplier (2.5 CRYPTO / 1.8 STOCK / 1.5
otherwise), LONG stop = entry − distance and target = entry + 2·distance
(mirrored for SHORT), position size = risk amount / |entry − stop| with
risk amount = account size × risk % / 100, and notional = size × entry;
at category CRYPTO, entry 100, ATR 2, LONG, account 10000, risk 1% the
proposal is stop 95, target 110, risk 100, size 20, notional 2000. -/
theorem C3_order_proposal_fields :
    (∀ (symbol name category : String) (t : TechAnalysis) (comp : ℚ)
        (now : String) (o : OrderProposal),
      build_order_from_analysis symbol name category t comp now = some o →
      o.entry = t.last_price ∧
      ((o.side = "LONG" ∧
          o.stop_loss = o.entry - t.atr14 * atrMultSl category ∧
          o.take_profit = o.entry + t.atr14 * atrMultSl category * 2) ∨
        (o.side = "SHORT" ∧
          o.stop_loss = o.entry + t.atr14 * atrMultSl category ∧
          o.take_profit = o.entry - t.atr14 * atrMultSl category * 2)) ∧
      o.risk_amount = ACCOUNT_SIZE * (RISK_PER_TRADE_PCT / 100) ∧
      o.position_size = o.risk_amount / |o.entry - o.stop_loss| ∧
      o.notional = o.position_size * o.entry) ∧
    atrMultSl "CRYPTO" = 2.5 ∧
    atrMultSl "STOCK" = 1.8 ∧
    (∀ c : String, c ≠ "CRYPTO" → c ≠ "STOCK" → atrMultSl c = 1.5) ∧
    ACCOUNT_SIZE = 10000 ∧ RISK_PER_TRADE_PCT = 1 ∧
    build_order_from_analysis "BTC-USD" "Bitcoin" "CRYPTO"
        (⟨6, "STRONG BUY", 100, 2, []⟩ : TechAnalysis) 6 "now"
      = some ⟨"now", "BTC-USD", "Bitcoin", "CRYPTO", "LONG", 100, 95, 110, 2, 6,
          "STRONG BUY", 6, 2, 20, 2000, 100, "Decisione tecnica: STRONG BUY"⟩ := by
  refine ⟨?_, rfl, rfl, ?_, rfl, rfl,
    by norm_num [build_order_from_analysis, mkOrder, atrMultSl, ACCOUNT_SIZE,
      RISK_PER_TRADE_PCT]; rfl⟩
  · intro symbol name category t comp now o h
    unfold build_order_from_analysis at h
    split_ifs at h
    all_goals first
      | exact Option.noConfusion h
      | (obtain ⟨hs, he, hsl, htp, hra, hps, hno⟩ := mkOrder_long_fields _ _ _ _ _ _ _ h
         exact ⟨he, Or.inl ⟨hs, by rw [he]; exact hsl, by rw [he]; exact htp⟩, hra, hps, hno⟩)
      | (obtain ⟨hs, he, hsl, htp, hra, hps, hno⟩ := mkOrder_short_fields _ _ _ _ _ _ _ h
         exact ⟨he, Or.inr ⟨hs, by rw [he]; exact hsl, by rw [he]; exact htp⟩, hra, hps, hno⟩)
  · intro c h1 h2
    unfold atrMultSl
    rw [if_neg h1, if_neg h2]

/-- Witness for C3: the default multiplier clause at a concrete category. -/
theorem C3_order_proposal_fields_witness : atrMultSl "ETF/INDEX" = 1.5 :=
  C3_order_proposal_fields.2.2.2.1 "ETF/INDEX" (by decide) (by decide)

/-- Claim C4: `build_order_from_analysis` returns `none` (and, being a
total function in this model, raises nothing) whenever the technical and
composite scores do not both clear the ±4 threshold with agreeing sign,
whenever ATR ≤ 0 or last price ≤ 0, whenever the computed stop or target
is ≤ 0, and in particular whenever ATR = 0, for every score combination. -/
theorem C4_no_proposal_cases :
    (∀ (symbol name category : String) (t : TechAnalysis) (comp : ℚ) (now : String),
      ¬(t.score ≥ 4 ∧ comp ≥ 4) → ¬(t.score ≤ -4 ∧ comp ≤ -4) →
      build_order_from_analysis symbol name category t comp now = none) ∧
    (∀ (symbol name category : String) (t : TechAnalysis) (comp : ℚ) (now : String),
      t.atr14 ≤ 0 ∨ t.last_price ≤ 0 →
      build_order_from_analysis symbol name category t comp now = none) ∧
    (∀ (symbol name category : String) (t : TechAnalysis) (comp : ℚ) (now : String),
      t.score ≥ 4 → comp ≥ 4 →
      t.last_price - t.atr14 * atrMultSl category ≤ 0 ∨
        t.last_price + t.atr14 * atrMultSl category * 2 ≤ 0 →
      build_order_from_analysis symbol name category t comp now = none) ∧
    (∀ (symbol name category : String) (t : TechAnalysis) (comp : ℚ) (now : String),
      t.score ≤ -4 → comp ≤ -4 →
      t.last_price + t.atr14 * atrMultSl category ≤ 0 ∨
        t.last_price - t.atr14 * atrMultSl category * 2 ≤ 0 →
      build_order_from_analysis symbol name category t comp now = none) ∧
    (∀ (symbol name category : String) (t : TechAnalysis) (comp : ℚ) (now : String),
      t.atr14 = 0 →
      build_order_from_analysis symbol name category t comp now = none) := by
  refine ⟨?_, ?_, ?_, ?_, ?_⟩
  · intro symbol name category t comp now hL hS
    unfold build_order_from_analysis
    split_ifs <;> rfl
  · intro symbol name category t comp now h
    unfold build_order_from_analysis
    rw [if_pos h]
  · intro symbol name category t comp now hs hc hbad
    unfold build_order_from_analysis
    by_cases hg : t.atr14 ≤ 0 ∨ t.last_price ≤ 0
    · rw [if_pos hg]
    · rw [if_neg hg, if_pos ⟨hs, hc⟩]
      simp only [mkOrder]
      split_ifs <;> first | rfl | exact absurd ‹"SHORT" = "LONG"› (by decide) | simp_all
  · intro symbol name category t comp now hs hc hbad
    unfold build_order_from_analysis
    by_cases hg : t.atr14 ≤ 0 ∨ t.last_price ≤ 0
    · rw [if_pos hg]
    · rw [if_neg hg, if_neg (by rintro ⟨h1, h2⟩; omega), if_pos ⟨hs, hc⟩]
      simp only [mkOrder]
      split_ifs <;> first | rfl | exact absurd ‹"SHORT" = "LONG"› (by decide) | simp_all
  · intro symbol name category t comp now h
    unfold build_order_from_analysis
    rw [if_pos (Or.inl (le_of_eq h))]

/-- Witness for C4: ATR = 0 and a weak-signal case both yield no proposal. -/
theorem C4_no_proposal_cases_witness :
    build_order_from_analysis "BTC-USD" "Bitcoin" "CRYPTO"
      ⟨6, "STRONG BUY", 100, 0, []⟩ 6 "now" = none ∧
    build_order_from_analysis "AAPL" "Apple" "STOCK"
      ⟨2, "HOLD / WAIT", 100, 2, []⟩ 0 "now" = none :=
  ⟨C4_no_proposal_cases.2.2.2.2 "BTC-USD" "Bitcoin" "CRYPTO"
      ⟨6, "STRONG BUY", 100, 0, []⟩ 6 "now" rfl,
   C4_no_proposal_cases.1 "AAPL" "Apple" "STOCK"
      ⟨2, "HOLD / WAIT", 100, 2, []⟩ 0 "now" (by decide) (by decide)⟩

/-! ## Paper-trade lifecycle (`paper_trading.py`) -/

/-- One row of the paper-trade ledger (`COLUMNS` in paper_trading.py).
String-typed columns stay strings (the source compares
`str(row["status"]).upper()` and `str(row["side"]).upper()`). -/
structure Trade where
  id : ℕ
  symbol : String
  side : String
  style : String
  lot : ℚ
  entry : ℚ
  stop_loss : ℚ
  take_profit : ℚ
  open_time : String
  close_time : String
  status : String
  last_price : ℚ
  pnl : ℚ
  pnl_pct : ℚ
  risk_amount : ℚ
  gain_amount : ℚ
  deriving Repr, DecidableEq

/-- Python's `str.upper()` as used by `update_trades_with_price` on the
`status` and `side` columns (ASCII values in this ledger), defined by a
structural map over the characters. -/
def pyUpper (s : String) : String :=
  ⟨s.data.map Char.toUpper⟩

/-- The per-row body of `update_trades_with_price`'s loop
(paper_trading.py, lines 128-156): rows of another symbol or whose status
is not OPEN are left untouched; otherwise P/L, last price and close state
are recomputed from the observed price.  `now` stands for
`datetime.utcnow().isoformat()`. -/
def updateRow (symbol : String) (last_price capital : ℚ) (now : String)
    (row : Trade) : Trade :=
  if row.symbol ≠ symbol then row
  else if (pyUpper row.status) ≠ "OPEN" then row
  else
    let side := pyUpper row.side
    let hit_tp := if side = "LONG" then last_price ≥ row.take_profit
                  else last_price ≤ row.take_profit
    let hit_sl := if side = "LONG" then last_price ≤ row.stop_loss
                  else last_price ≥ row.stop_loss
    let pnl := if side = "LONG" then (last_price - row.entry) * row.lot
               else (row.entry - last_price) * row.lot
    let row1 := { row with
      last_price := last_price
      pnl := pnl
      pnl_pct := if capital > 0 then pnl / capital * 100 else 0 }
    if hit_tp ∨ hit_sl then { row1 with status := "CLOSED", close_time := now }
    else row1

/-- Embeds `update_trades_with_price` (paper_trading.py, lines 111-161):
the ledger is the list of rows and the loop is a row-wise map (the source
mutates each selected row of the frame in place, which is the same
transformation; the CSV read/write is outside the model). -/
def update_trades_with_price (symbol : String) (last_price capital : ℚ)
    (now : String) (df : List Trade) : List Trade :=
  df.map (updateRow symbol last_price capital now)

theorem pyUpper_OPEN : pyUpper "OPEN" = "OPEN" := rfl

theorem pyUpper_LONG : pyUpper "LONG" = "LONG" := rfl

theorem pyUpper_SHORT : pyUpper "SHORT" = "SHORT" := rfl

/-- Claim C5: for an OPEN trade on the updated symbol,
`update_trades_with_price` recomputes pnl from the observed price
((price − entry)·lot for LONG, (entry − price)·lot for SHORT), sets
pnl_pct = pnl / capital · 100 (0 if capital ≤ 0), always updates
last_price, and closes (status CLOSED, close_time recorded) exactly when
the price reaches stop or target, with pnl taken from the triggering
price; the entry=100/stop=95/take=110/lot=20 LONG examples close with
pnl 220 at price 111 and pnl −120 at price 94. -/
theorem C5_mark_to_market :
    (∀ (sym : String) (price capital : ℚ) (now : String) (row : Trade),
      row.symbol = sym → row.status = "OPEN" → row.side = "LONG" →
      (updateRow sym price capital now row).last_price = price ∧
      (updateRow sym price capital now row).pnl = (price - row.entry) * row.lot ∧
      (updateRow sym price capital now row).pnl_pct =
        (if capital > 0 then (price - row.entry) * row.lot / capital * 100 else 0) ∧
      ((price ≥ row.take_profit ∨ price ≤ row.stop_loss) ↔
        ((updateRow sym price capital now row).status = "CLOSED" ∧
          (updateRow sym price capital now row).close_time = now))) ∧
    (∀ (sym : String) (price capital : ℚ) (now : String) (row : Trade),
      row.symbol = sym → row.status = "OPEN" → row.side = "SHORT" →
      (updateRow sym price capital now row).last_price = price ∧
      (updateRow sym price capital now row).pnl = (row.entry - price) * row.lot ∧
      (updateRow sym price capital now row).pnl_pct =
        (if capital > 0 then (row.entry - price) * row.lot / capital * 100 else 0) ∧
      ((price ≤ row.take_profit ∨ price ≥ row.stop_loss) ↔
        ((updateRow sym price capital now row).status = "CLOSED" ∧
          (updateRow sym price capital now row).close_time = now))) ∧
    update_trades_with_price "BTC-USD" 111 1000 "t1"
        [⟨1, "BTC-USD", "LONG", "Swing", 20, 100, 95, 110, "t0", "", "OPEN",
          100, 0, 0, 100, 200⟩]
      = [⟨1, "BTC-USD", "LONG", "Swing", 20, 100, 95, 110, "t0", "t1", "CLOSED",
          111, 220, 22, 100, 200⟩] ∧
    update_trades_with_price "BTC-USD" 94 1000 "t1"
        [⟨1, "BTC-USD", "LONG", "Swing", 20, 100, 95, 110, "t0", "", "OPEN",
          100, 0, 0, 100, 200⟩]
      = [⟨1, "BTC-USD", "LONG", "Swing", 20, 100, 95, 110, "t0", "t1", "CLOSED",
          94, -120, -12, 100, 200⟩] := by
  refine ⟨?_, ?_,
    by norm_num [update_trades_with_price, updateRow, pyUpper_OPEN, pyUpper_LONG],
    by norm_num [update_trades_with_price, updateRow, pyUpper_OPEN, pyUpper_LONG]⟩
  · intro sym price capital now row hsym hstat hside
    subst hsym
    simp only [updateRow, hstat, hside, pyUpper_OPEN, pyUpper_LONG, ne_eq,
      not_true_eq_false, if_false, ite_not]
    split_ifs with h1 h2 <;> simp_all
  · intro sym price capital now row hsym hstat hside
    subst hsym
    simp only [updateRow, hstat, hside, pyUpper_OPEN, pyUpper_SHORT, ne_eq,
      not_true_eq_false, if_false, ite_not]
    split_ifs with h1 h2 <;> simp_all

/-- Witness for C5: the LONG clause applied to a concrete open trade. -/
theorem C5_mark_to_market_witness :
    (updateRow "BTC-USD" 111 1000 "t1"
      ⟨1, "BTC-USD", "LONG", "Swing", 20, 100, 95, 110, "t0", "", "OPEN",
        100, 0, 0, 100, 200⟩).last_price = 111 ∧
    (updateRow "BTC-USD" 111 1000 "t1"
      ⟨1, "BTC-USD", "LONG", "Swing", 20, 100, 95, 110, "t0", "", "OPEN",
        100, 0, 0, 100, 200⟩).pnl = (111 - 100) * 20 ∧
    (updateRow "BTC-USD" 111 1000 "t1"
      ⟨1, "BTC-USD", "LONG", "Swing", 20, 100, 95, 110, "t0", "", "OPEN",
        100, 0, 0, 100, 200⟩).pnl_pct =
      (if (1000 : ℚ) > 0 then (111 - 100) * 20 / 1000 * 100 else 0) ∧
    (((111 : ℚ) ≥ 110 ∨ (111 : ℚ) ≤ 95) ↔
      ((updateRow "BTC-USD" 111 1000 "t1"
        ⟨1, "BTC-USD", "LONG", "Swing", 20, 100, 95, 110, "t0", "", "OPEN",
          100, 0, 0, 100, 200⟩).status = "CLOSED" ∧
       (updateRow "BTC-USD" 111 1000 "t1"
        ⟨1, "BTC-USD", "LONG", "Swing", 20, 100, 95, 110, "t0", "", "OPEN",
          100, 0, 0, 100, 200⟩).close_time = "t1")) :=
  C5_mark_to_market.1 "BTC-USD" 111 1000 "t1"
    ⟨1, "BTC-USD", "LONG", "Swing", 20, 100, 95, 110, "t0", "", "OPEN",
      100, 0, 0, 100, 200⟩ rfl rfl rfl

/-- Claim C6: `update_trades_with_price` touches only OPEN rows of the
updated symbol: rows of a different symbol, rows whose status is not
OPEN, and in particular already-CLOSED rows, are returned with every
field identical (CLOSED is terminal), and the ledger length is
preserved. -/
theorem C6_frame_untouched :
    (∀ (sym : String) (price capital : ℚ) (now : String) (row : Trade),
      row.symbol ≠ sym → updateRow sym price capital now row = row) ∧
    (∀ (sym : String) (price capital : ℚ) (now : String) (row : Trade),
      (pyUpper row.status) ≠ "OPEN" → updateRow sym price capital now row = row) ∧
    (∀ (sym : String) (price capital : ℚ) (now : String) (row : Trade),
      row.status = "CLOSED" → updateRow sym price capital now row = row) ∧
    (∀ (sym : String) (price capital : ℚ) (now : String) (df : List Trade),
      (update_trades_with_price sym price capital now df).length = df.length) ∧
    (∀ (sym : String) (price capital : ℚ) (now : String) (df : List Trade)
        (i : ℕ) (h1 : i < (update_trades_with_price sym price capital now df).length)
        (h2 : i < df.length),
      (df.get ⟨i, h2⟩).symbol ≠ sym ∨ (df.get ⟨i, h2⟩).status = "CLOSED" →
      (update_trades_with_price sym price capital now df).get ⟨i, h1⟩ = df.get ⟨i, h2⟩) := by
  have hsym : ∀ (sym : String) (price capital : ℚ) (now : String) (row : Trade),
      row.symbol ≠ sym → updateRow sym price capital now row = row := by
    intro sym price capital now row h
    unfold updateRow
    rw [if_pos h]
  have hstat : ∀ (sym : String) (price capital : ℚ) (now : String) (row : Trade),
      (pyUpper row.status) ≠ "OPEN" → updateRow sym price capital now row = row := by
    intro sym price capital now row h
    unfold updateRow
    split_ifs with a b c <;> first | rfl | exact absurd h b
  have hclosed : ∀ (sym : String) (price capital : ℚ) (now : String) (row : Trade),
      row.status = "CLOSED" → updateRow sym price capital now row = row := by
    intro sym price capital now row h
    exact hstat sym price capital now row (by rw [h]; decide)
  refine ⟨hsym, hstat, hclosed, ?_, ?_⟩
  · intro sym price capital now df
    simp [update_trades_with_price]
  · intro sym price capital now df i h1 h2 hcond
    simp only [update_trades_with_price, List.get_eq_getElem, List.getElem_map]
    rcases hcond with hcond | hcond
    · exact hsym sym price capital now _ hcond
    · exact hclosed sym price capital now _ hcond

/-- Witness for C6: a CLOSED row and a different-symbol row are unchanged. -/
theorem C6_frame_untouched_witness :
    updateRow "BTC-USD" 111 1000 "t1"
      ⟨1, "BTC-USD", "LONG", "Swing", 20, 100, 95, 110, "t0", "t", "CLOSED",
        94, -120, -12, 100, 200⟩
    = ⟨1, "BTC-USD", "LONG", "Swing", 20, 100, 95, 110, "t0", "t", "CLOSED",
        94, -120, -12, 100, 200⟩ ∧
    updateRow "BTC-USD" 111 1000 "t1"
      ⟨2, "ETH-USD", "LONG", "Swing", 20, 100, 95, 110, "t0", "", "OPEN",
        100, 0, 0, 100, 200⟩
    = ⟨2, "ETH-USD", "LONG", "Swing", 20, 100, 95, 110, "t0", "", "OPEN",
        100, 0, 0, 100, 200⟩ :=
  ⟨C6_frame_untouched.2.2.1 "BTC-USD" 111 1000 "t1"
      ⟨1, "BTC-USD", "LONG", "Swing", 20, 100, 95, 110, "t0", "t", "CLOSED",
        94, -120, -12, 100, 200⟩ rfl,
   C6_frame_untouched.1 "BTC-USD" 111 1000 "t1"
      ⟨2, "ETH-USD", "LONG", "Swing", 20, 100, 95, 110, "t0", "", "OPEN",
        100, 0, 0, 100, 200⟩ (by decide)⟩

/-! ## RSI (`technical_agent.py`, `_rsi` and `compute_indicators`) -/

/-- `series.diff()` on closing prices, omitting the leading NaN cell:
entry j is `close[j+1] - close[j]`, so the list is aligned to bars 1.. -/
def diffs (closes : List ℚ) : List ℚ :=
  List.zipWith (fun b a => b - a) closes.tail closes

/-- `delta.clip(lower=0)`: the win part of each move. -/
def gains (closes : List ℚ) : List ℚ :=
  (diffs closes).map (fun d => max d 0)

/-- `-delta.clip(upper=0)`: the loss part of each move. -/
def losses (closes : List ℚ) : List ℚ :=
  (diffs closes).map (fun d => max (-d) 0)

/-- `series.rolling(p).mean()`: entry i is the mean of the window ending
at i once `p` cells are available, and NaN (here `none`) during warm-up. -/
def rollingMean (p : ℕ) (l : List ℚ) : List (Option ℚ) :=
  (List.range l.length).map (fun i =>
    if p ≤ i + 1 then some (((l.take (i + 1)).drop (i + 1 - p)).sum / p) else none)

/-- The per-bar tail of `_rsi` (technical_agent.py, lines 61-62):
`rs = avg_gain / avg_loss.replace(0, nan)` and `rsi = 100 - 100/(1+rs)`;
a zero rolling average loss becomes NaN (`none`), never a division. -/
def rsiCell : Option ℚ × Option ℚ → Option ℚ
  | (some g, some l) => if l = 0 then none else some (100 - 100 / (1 + g / l))
  | _ => none

/-- Embeds `_rsi` (technical_agent.py, lines 53-63) with period 14, on the
list of closing prices, aligned to bars 1..: rolling means of wins and
losses combined cell-wise by `rsiCell`.  A `none` cell is a NaN in the
source and is dropped by `compute_indicators`'s `dropna`, so exactly the
`some` cells reach the scoring engine. -/
def _rsi (closes : List ℚ) : List (Option ℚ) :=
  (List.zip (rollingMean 14 (gains closes)) (rollingMean 14 (losses closes))).map rsiCell

/-- A defined cell of a rolling mean over a pointwise-nonnegative list is
nonnegative. -/
theorem rollingMean_nonneg (p : ℕ) (l : List ℚ) (hl : ∀ y ∈ l, 0 ≤ y)
    (x : Option ℚ) (hx : x ∈ rollingMean p l) (w : ℚ) (hw : x = some w) :
    0 ≤ w := by
  subst hw
  simp only [rollingMean, List.mem_map, List.mem_range] at hx
  obtain ⟨i, _, hfi⟩ := hx
  by_cases hp : p ≤ i + 1
  · rw [if_pos hp] at hfi
    obtain rfl := (Option.some.inj hfi).symm
    apply div_nonneg
    · apply List.sum_nonneg
      intro y hy
      exact hl y (List.mem_of_mem_take (List.mem_of_mem_drop hy))
    · positivity
  · rw [if_neg hp] at hfi
    exact Option.noConfusion hfi

/-- Claim C7: the RSI(14) computation never divides by zero: a zero
rolling average loss is mapped to the undefined sentinel `none` (NaN in
the source, dropped before scoring), and every defined RSI cell — which
is exactly what reaches the scoring engine after `dropna` — lies in
[0, 100]. -/
theorem C7_rsi_in_range :
    (∀ (closes : List ℚ) (v : ℚ), some v ∈ _rsi closes → 0 ≤ v ∧ v ≤ 100) ∧
    (∀ g : Option ℚ, rsiCell (g, some 0) = none) ∧
    (∀ g : Option ℚ, rsiCell (g, none) = none) := by
  refine ⟨?_, ?_, ?_⟩
  · intro closes v hv
    simp only [_rsi, List.mem_map] at hv
    obtain ⟨⟨og, ol⟩, hmem, hcell⟩ := hv
    obtain ⟨hg, hl⟩ := List.of_mem_zip hmem
    match og, ol, hcell with
    | some g, some l, hcell =>
      by_cases hl0 : l = 0
      · rw [rsiCell, if_pos hl0] at hcell
        exact Option.noConfusion hcell
      · rw [rsiCell, if_neg hl0] at hcell
        obtain rfl := (Option.some.inj hcell).symm
        have hgnn : 0 ≤ g := by
          refine rollingMean_nonneg 14 (gains closes) ?_ (some g) hg g rfl
          intro y hy
          simp only [gains, List.mem_map] at hy
          obtain ⟨d, _, rfl⟩ := hy
          exact le_max_right d 0
        have hlnn : 0 ≤ l := by
          refine rollingMean_nonneg 14 (losses closes) ?_ (some l) hl l rfl
          intro y hy
          simp only [losses, List.mem_map] at hy
          obtain ⟨d, _, rfl⟩ := hy
          exact le_max_right (-d) 0
        have hlpos : 0 < l := lt_of_le_of_ne hlnn (Ne.symm hl0)
        have hrs : 0 ≤ g / l := div_nonneg hgnn hlnn
        constructor
        · have : 100 / (1 + g / l) ≤ 100 := div_le_self (by norm_num) (by linarith)
          linarith
        · have : 0 < 100 / (1 + g / l) := div_pos (by norm_num) (by linarith)
          linarith
  · intro g
    match g with
    | some g => rw [rsiCell, if_pos rfl]
    | none => rfl
  · intro g
    match g with
    | some g => rfl
    | none => rfl

/-- Witness for C7: a 15-bar alternating series whose defined RSI cell
is 50, shown to lie in [0, 100]. -/
theorem C7_rsi_in_range_witness : 0 ≤ (50 : ℚ) ∧ (50 : ℚ) ≤ 100 :=
  C7_rsi_in_range.1
    [100, 102, 100, 102, 100, 102, 100, 102, 100, 102, 100, 102, 100, 102, 100] 50
    (by norm_num [_rsi, rsiCell, rollingMean, gains, losses, diffs, List.range_succ])

/-! ## ADX (`technical_agent.py`, `_adx`)

NaN conventions of the source, reflected here: `diff()` leaves index 0
undefined (`none`); the boolean masks building `plus_dm`/`minus_dm`
compare False on NaN, so those cells keep their initial `0.0`;
`pd.concat(...).max(axis=1)` skips NaN, so the true range at index 0 is
`high - low`; a float division whose denominator is zero yields a
non-finite value (NaN for 0/0), modelled uniformly as `none`. -/

/-- One OHLC bar as consumed by `_adx` (the Volume column is unused). -/
structure Bar where
  high : ℚ
  low : ℚ
  close : ℚ
  deriving Repr, DecidableEq

/-- `series.diff()` of a per-bar field: `none` at index 0, then
`f bars[i] - f bars[i-1]`. -/
def diffsO (f : Bar → ℚ) (bars : List Bar) : List (Option ℚ) :=
  match bars with
  | [] => []
  | _ :: rest => none :: List.zipWith (fun b a => some (f b - f a)) rest bars

/-- `up_move = high.diff()`. -/
def upMoves (bars : List Bar) : List (Option ℚ) := diffsO Bar.high bars

/-- `down_move = -low.diff()`. -/
def downMoves (bars : List Bar) : List (Option ℚ) :=
  (diffsO Bar.low bars).map (Option.map Neg.neg)

/-- `plus_dm`: initialized to 0.0 and overwritten with `up_move` where
`(up_move > down_move) & (up_move > 0)`; NaN comparisons are False. -/
def plus_dm (bars : List Bar) : List ℚ :=
  List.zipWith
    (fun u d => match u, d with
      | some u, some d => if u > d ∧ u > 0 then u else 0
      | _, _ => 0)
    (upMoves bars) (downMoves bars)

/-- `minus_dm`: initialized to 0.0 and overwritten with `down_move` where
`(down_move > up_move) & (down_move > 0)`; NaN comparisons are False. -/
def minus_dm (bars : List Bar) : List ℚ :=
  List.zipWith
    (fun u d => match u, d with
      | some u, some d => if d > u ∧ d > 0 then d else 0
      | _, _ => 0)
    (upMoves bars) (downMoves bars)

/-- `_atr(df, period=1)`: the raw true range (a window of 1 makes the
rolling mean the identity).  At index 0 the two prev-close terms are NaN
and `max(axis=1)` skips them, leaving `high - low`. -/
def trueRange (bars : List Bar) : List ℚ :=
  match bars with
  | [] => []
  | b :: rest =>
    (b.high - b.low) ::
      List.zipWith
        (fun cur prev =>
          max (cur.high - cur.low) (max |cur.high - prev.close| |cur.low - prev.close|))
        rest bars

/-- `series.rolling(p).sum()`: defined once `p` cells are available. -/
def rollingSum (p : ℕ) (l : List ℚ) : List (Option ℚ) :=
  (List.range l.length).map (fun i =>
    if p ≤ i + 1 then some (((l.take (i + 1)).drop (i + 1 - p)).sum) else none)

/-- One cell of `100 * dm.rolling(14).sum() / tr.rolling(14).sum()`:
undefined during warm-up or when the true-range sum is zero (the float
division is then non-finite). -/
def diCell : Option ℚ × Option ℚ → Option ℚ
  | (some s, some t) => if t = 0 then none else some (100 * s / t)
  | _ => none

/-- `plus_di` (technical_agent.py, line 109). -/
def plus_di (bars : List Bar) : List (Option ℚ) :=
  (List.zip (rollingSum 14 (plus_dm bars)) (rollingSum 14 (trueRange bars))).map diCell

/-- `minus_di` (technical_agent.py, line 110). -/
def minus_di (bars : List Bar) : List (Option ℚ) :=
  (List.zip (rollingSum 14 (minus_dm bars)) (rollingSum 14 (trueRange bars))).map diCell

/-- One cell of `dx = (plus_di - minus_di).abs() / (plus_di + minus_di).abs() * 100`
(technical_agent.py, line 112): when `|+DI + -DI| = 0` the float division
is 0/0 = NaN, i.e. undefined — the source has no fallback to zero. -/
def dxCell : Option ℚ × Option ℚ → Option ℚ
  | (some p, some m) => if |p + m| = 0 then none else some (|p - m| / |p + m| * 100)
  | _ => none

/-- The `dx` series. -/
def dx (bars : List Bar) : List (Option ℚ) :=
  (List.zip (plus_di bars) (minus_di bars)).map dxCell

/-- `series.rolling(p).mean()` over an already-partial series: NaN in the
window poisons the window (pandas default `min_periods = p`). -/
def rollingMeanO (p : ℕ) (l : List (Option ℚ)) : List (Option ℚ) :=
  (List.range l.length).map (fun i =>
    if p ≤ i + 1 then
      (if ((l.take (i + 1)).drop (i + 1 - p)).all Option.isSome then
        some ((((l.take (i + 1)).drop (i + 1 - p)).filterMap id).sum / p)
      else none)
    else none)

/-- `adx = dx.rolling(period).mean()` (technical_agent.py, line 113). -/
def _adx (bars : List Bar) : List (Option ℚ) :=
  rollingMeanO 14 (dx bars)

/-- 27 identical bars: high 10, low 5, close 7.  Directional movement is
identically zero while the true range stays 5, so both DI lines are a
defined 0 — the claimed "+DI and -DI both zero" regime. -/
def flatBars : List Bar := List.replicate 27 ⟨10, 5, 7⟩

/-- Claim C8 (evaluation at the failing input): when +DI and -DI are both
zero the source's `dx` division is 0/0, which is NaN — undefined, not the
zero the claim mandates — and the NaN propagates into ADX.  On 27 flat
bars both DI lines are a defined 0 at index 26, yet `dx` and `_adx` are
undefined there; `dxCell` is `none` (never `some 0`) whenever the DI sum
is zero.  No division fault is raised (the embedded functions are total;
the float division yields NaN). -/
theorem C8_adx_zero_di_is_undefined :
    (∀ p m : ℚ, p + m = 0 → dxCell (some p, some m) = none) ∧
    (plus_di flatBars).get? 26 = some (some 0) ∧
    (minus_di flatBars).get? 26 = some (some 0) ∧
    (dx flatBars).get? 26 = some none ∧
    (_adx flatBars).get? 26 = some none ∧
    dxCell (some 0, some 0) ≠ some 0 := by
  refine ⟨?_, ?_, ?_, ?_, ?_, ?_⟩
  · intro p m h
    rw [dxCell, if_pos (by rw [h, abs_zero])]
  · norm_num [plus_di, plus_dm, upMoves, downMoves, diffsO, trueRange, diCell,
      rollingSum, flatBars, List.replicate, List.range_succ]
  · norm_num [minus_di, minus_dm, upMoves, downMoves, diffsO, trueRange, diCell,
      rollingSum, flatBars, List.replicate, List.range_succ]
  · norm_num [dx, dxCell, plus_di, minus_di, plus_dm, minus_dm, upMoves, downMoves,
      diffsO, trueRange, diCell, rollingSum, flatBars, List.replicate, List.range_succ]
  · norm_num [_adx, rollingMeanO, dx, dxCell, plus_di, minus_di, plus_dm, minus_dm,
      upMoves, downMoves, diffsO, trueRange, diCell, rollingSum, flatBars,
      List.replicate, List.range_succ]
  · rw [dxCell, if_pos (by norm_num)]
    exact Option.noConfusion

/-- Witness for C8: the zero-DI-sum clause applied at +DI = -DI = 0. -/
theorem C8_adx_zero_di_is_undefined_witness : dxCell (some 0, some 0) = none :=
  C8_adx_zero_di_is_undefined.1 0 0 (by norm_num)

/-! ## Backtest evaluator (`backtest.py`) -/

/-- One row of a downloaded daily price frame: calendar day (as a day
number, matching `datetime.date` order) and its close. -/
structure PricePoint where
  date : ℤ
  close : ℚ
  deriving Repr, DecidableEq

/-- The date order used by `sorted(df.index)`. -/
def dateLe (a b : PricePoint) : Prop := a.date ≤ b.date

instance : DecidableRel dateLe := fun a b =>
  inferInstanceAs (Decidable (a.date ≤ b.date))

instance : IsTotal PricePoint dateLe := ⟨fun a b => le_total a.date b.date⟩

instance : IsTrans PricePoint dateLe := ⟨fun _ _ _ h1 h2 => le_trans h1 h2⟩

/-- Embeds `get_future_price` (backtest.py, lines 155-187): sort the
series by date, take the close of the first bar on or after the signal
date and of the first bar on or after signal date + horizon; a missing
lookup is `np.nan`, here `none`. -/
def get_future_price (df : List PricePoint) (signal_date horizon_days : ℤ) :
    Option ℚ × Option ℚ :=
  let dates_sorted := List.insertionSort dateLe df
  match dates_sorted.find? (fun p => decide (signal_date ≤ p.date)) with
  | none => (none, none)
  | some pe =>
    match dates_sorted.find? (fun p => decide (signal_date + horizon_days ≤ p.date)) with
    | none => (some pe.close, none)
    | some pf => (some pe.close, some pf.close)

/-- The loop body of `compute_forward_returns` for one signal and one
horizon (backtest.py, lines 214-219): skip (leave NaN) unless both
prices are defined, else `(future - entry) / entry * 100`. -/
def forwardReturn (df : List PricePoint) (signal_date horizon_days : ℤ) : Option ℚ :=
  match get_future_price df signal_date horizon_days with
  | (some pe, some pf) => some ((pf - pe) / pe * 100)
  | _ => none

/-- `df_dec[col].dropna()` in `summarize_by_decision` (backtest.py,
line 256): the defined returns that enter every aggregate. -/
def validReturns (l : List (Option ℚ)) : List ℚ := l.filterMap id

/-- `valid.mean()` guarded by `valid.empty` (backtest.py, lines 258-262). -/
def meanReturn (l : List (Option ℚ)) : Option ℚ :=
  if validReturns l = [] then none
  else some ((validReturns l).sum / (validReturns l).length)

/-- `(valid > 0).mean() * 100` guarded by `valid.empty` (line 264). -/
def winRate (l : List (Option ℚ)) : Option ℚ :=
  if validReturns l = [] then none
  else some ((((validReturns l).filter (fun x => decide (0 < x))).length : ℚ) /
    (validReturns l).length * 100)

/-- `find?` on a date-sorted list returns the minimal element at or after
the threshold. -/
theorem find?_sorted_min (l : List PricePoint) (hs : List.Sorted dateLe l)
    (t : ℤ) (x : PricePoint)
    (hx : l.find? (fun p => decide (t ≤ p.date)) = some x) :
    x ∈ l ∧ t ≤ x.date ∧ ∀ q ∈ l, t ≤ q.date → x.date ≤ q.date := by
  induction l with
  | nil => exact Option.noConfusion hx
  | cons a rest ih =>
    obtain ⟨ha, hrest⟩ := List.sorted_cons.mp hs
    by_cases hta : t ≤ a.date
    · rw [List.find?_cons_of_pos _ (by simpa using hta)] at hx
      obtain rfl := Option.some.inj hx
      refine ⟨List.mem_cons_self _ _, hta, ?_⟩
      intro q hq _
      rcases List.mem_cons.mp hq with rfl | hq
      · exact le_refl _
      · exact ha q hq
    · rw [List.find?_cons_of_neg _ (by simpa using hta)] at hx
      obtain ⟨hmem, hxt, hmin⟩ := ih hrest hx
      refine ⟨List.mem_cons_of_mem _ hmem, hxt, ?_⟩
      intro q hq hqt
      rcases List.mem_cons.mp hq with rfl | hq
      · exact absurd hqt hta
      · exact hmin q hq hqt

/-- Claim C9: the backtest entry price is the close of the first bar on
or after the signal date and the future price the close of the first bar
on or after signal date + horizon (a series missing D+3 but containing
D+4 uses D+4's close); if either bar is missing, the return is `none` —
not zero, not an error — and aggregation (mean, win rate) sees only the
defined returns, so an undefined return never changes it. -/
theorem C9_forward_return_lookup :
    (∀ (df : List PricePoint) (d h : ℤ) (r : ℚ),
      forwardReturn df d h = some r →
      ∃ pe pf : PricePoint, pe ∈ df ∧ pf ∈ df ∧
        d ≤ pe.date ∧ (∀ q ∈ df, d ≤ q.date → pe.date ≤ q.date) ∧
        d + h ≤ pf.date ∧ (∀ q ∈ df, d + h ≤ q.date → pf.date ≤ q.date) ∧
        r = (pf.close - pe.close) / pe.close * 100) ∧
    (∀ (df : List PricePoint) (d h : ℤ),
      (∀ q ∈ df, q.date < d + h) → forwardReturn df d h = none) ∧
    (∀ (df : List PricePoint) (d h : ℤ),
      (∀ q ∈ df, q.date < d) → forwardReturn df d h = none) ∧
    (∀ xs ys : List (Option ℚ),
      validReturns (xs ++ none :: ys) = validReturns (xs ++ ys) ∧
      meanReturn (xs ++ none :: ys) = meanReturn (xs ++ ys) ∧
      winRate (xs ++ none :: ys) = winRate (xs ++ ys)) ∧
    forwardReturn [⟨0, 100⟩, ⟨1, 101⟩, ⟨2, 102⟩, ⟨4, 106⟩] 0 3 = some 6 := by
  have hperm : ∀ df : List PricePoint,
      ∀ q ∈ List.insertionSort dateLe df, q ∈ df := by
    intro df q hq
    exact (List.perm_insertionSort dateLe df).mem_iff.mp hq
  have hperm2 : ∀ df : List PricePoint,
      ∀ q ∈ df, q ∈ List.insertionSort dateLe df := by
    intro df q hq
    exact (List.perm_insertionSort dateLe df).mem_iff.mpr hq
  refine ⟨?_, ?_, ?_, ?_, ?_⟩
  · intro df d h r hr
    unfold forwardReturn get_future_price at hr
    dsimp only at hr
    cases he : (List.insertionSort dateLe df).find? (fun p => decide (d ≤ p.date)) with
    | none => rw [he] at hr; exact Option.noConfusion hr
    | some pe =>
      cases hf : (List.insertionSort dateLe df).find?
          (fun p => decide (d + h ≤ p.date)) with
      | none => rw [he, hf] at hr; exact Option.noConfusion hr
      | some pf =>
        rw [he, hf] at hr
        dsimp only at hr
        obtain rfl := (Option.some.inj hr).symm
        obtain ⟨hem, het, hemin⟩ :=
          find?_sorted_min _ (List.sorted_insertionSort dateLe df) d pe he
        obtain ⟨hfm, hft, hfmin⟩ :=
          find?_sorted_min _ (List.sorted_insertionSort dateLe df) (d + h) pf hf
        exact ⟨pe, pf, hperm df pe hem, hperm df pf hfm, het,
          fun q hq hqt => hemin q (hperm2 df q hq) hqt, hft,
          fun q hq hqt => hfmin q (hperm2 df q hq) hqt, rfl⟩
  · intro df d h hall
    unfold forwardReturn get_future_price
    have hnone : (List.insertionSort dateLe df).find?
        (fun p => decide (d + h ≤ p.date)) = none := by
      rw [List.find?_eq_none]
      intro q hq
      simpa using not_le.mpr (hall q (hperm df q hq))
    dsimp only
    cases he : (List.insertionSort dateLe df).find? (fun p => decide (d ≤ p.date)) with
    | none => rfl
    | some pe => rw [hnone]
  · intro df d h hall
    unfold forwardReturn get_future_price
    have hnone : (List.insertionSort dateLe df).find?
        (fun p => decide (d ≤ p.date)) = none := by
      rw [List.find?_eq_none]
      intro q hq
      simpa using not_le.mpr (hall q (hperm df q hq))
    dsimp only
    rw [hnone]
  · intro xs ys
    have hv : validReturns (xs ++ none :: ys) = validReturns (xs ++ ys) := by
      simp [validReturns]
    exact ⟨hv, by rw [meanReturn, meanReturn, hv], by rw [winRate, winRate, hv]⟩
  · norm_num [forwardReturn, get_future_price, List.insertionSort,
      List.orderedInsert, dateLe, List.find?]

/-- Witness for C9: a series whose last bar precedes D+3 gives an
undefined (excluded) return. -/
theorem C9_forward_return_lookup_witness :
    forwardReturn [⟨0, 100⟩, ⟨1, 101⟩] 0 3 = none :=
  C9_forward_return_lookup.2.1 [⟨0, 100⟩, ⟨1, 101⟩] 0 3
    (by intro q hq; rcases List.mem_cons.mp hq with rfl | hq
        · norm_num
        · rcases List.mem_singleton.mp hq with rfl; norm_num)

/-! ## Ensemble combiner (`ensemble_manager.py`) -/

/-- `TECH_WEIGHT` (ensemble_manager.py, line 9): technical only. -/
def TECH_WEIGHT : ℚ := 1

/-- `NEWS_WEIGHT` (ensemble_manager.py, line 10): news disabled. -/
def NEWS_WEIGHT : ℚ := 0

/-- The dict returned by `run_technical_agent` as consumed by
`analyze_one` (score, decision, reasons; the data frame and price fields
are not read by `analyze_one` beyond these). -/
structure TechResult where
  score : ℤ
  decision : String
  reasons : List String
  deriving Repr, DecidableEq

/-- The dict built by `analyze_one`. -/
structure EnsembleEntry where
  symbol : String
  name : String
  category : String
  tech_score : ℤ
  tech_decision : String
  tech_reasons : List String
  news_score : ℚ
  news_titles : List String
  ensemble_score : ℚ
  deriving Repr, DecidableEq

/-- Embeds `analyze_one` (ensemble_manager.py, lines 13-59).  The call to
`run_technical_agent` is the one fallible step; its outcome is the
`Except` argument (`Except.error` models any raised exception, caught by
the source's `try/except`, which keeps the neutral defaults
`tech_score = 0`, `tech_decision = "N/A"`).  `news_score` is fixed at 0.0
in the source. -/
def analyze_one (symbol name category : String)
    (tech : Except String TechResult) : EnsembleEntry :=
  let news_score : ℚ := 0
  let news_titles : List String := []
  let (tech_score, tech_decision, tech_reasons) :=
    match tech with
    | Except.ok r => (r.score, r.decision, r.reasons)
    | Except.error _ => ((0 : ℤ), "N/A", ([] : List String))
  let ensemble_score := TECH_WEIGHT * (tech_score : ℚ) + NEWS_WEIGHT * news_score
  { symbol := symbol
    name := name
    category := category
    tech_score := tech_score
    tech_decision := tech_decision
    tech_reasons := tech_reasons
    news_score := news_score
    news_titles := news_titles
    ensemble_score := ensemble_score }

/-- Claim C10: under the shipped configuration (TECH_WEIGHT = 1.0,
NEWS_WEIGHT = 0.0, news_score fixed at 0.0) the ensemble score equals the
technical score as a rational for every input, so news never influences a
composite score; and when the technical analysis fails, `analyze_one`
still returns the neutral entry with tech_score 0, decision "N/A" and
ensemble score 0.0 instead of propagating the failure. -/
theorem C10_ensemble_equals_tech :
    (∀ (symbol name category : String) (tech : Except String TechResult),
      (analyze_one symbol name category tech).ensemble_score =
        ((analyze_one symbol name category tech).tech_score : ℚ)) ∧
    (∀ (symbol name category : String) (tech : Except String TechResult),
      (analyze_one symbol name category tech).news_score = 0) ∧
    TECH_WEIGHT = 1 ∧ NEWS_WEIGHT = 0 ∧
    (∀ (symbol name category e : String),
      analyze_one symbol name category (Except.error e) =
        { symbol := symbol, name := name, category := category,
          tech_score := 0, tech_decision := "N/A", tech_reasons := [],
          news_score := 0, news_titles := [], ensemble_score := 0 }) ∧
    (∀ (symbol name category : String) (r : TechResult),
      (analyze_one symbol name category (Except.ok r)).tech_score = r.score ∧
      (analyze_one symbol name category (Except.ok r)).ensemble_score = (r.score : ℚ)) := by
  refine ⟨?_, ?_, rfl, rfl, ?_, ?_⟩
  · intro symbol name category tech
    cases tech <;> simp [analyze_one, TECH_WEIGHT, NEWS_WEIGHT]
  · intro symbol name category tech
    cases tech <;> rfl
  · intro symbol name category e
    simp [analyze_one, TECH_WEIGHT, NEWS_WEIGHT]
  · intro symbol name category r
    constructor
    · rfl
    · simp [analyze_one, TECH_WEIGHT, NEWS_WEIGHT]

end Trading
